import Mathlib

/-!
# STOCHOPT — verification of the agriculture planning frontend and core

Shallow embedding of the STOCHOPT two-stage stochastic crop-planning
system.  The repository under verification ships the React/TypeScript
frontend (`types/agriculture.ts`, `services/agricultureService.ts`,
`modules/agriculture/AgricultureModule.tsx`); the Python optimization
backend is described by the specification but its source is not part of
the repository snapshot, so those parts (stochastic program, solver
verdicts, result synthesizer) are modelled from the spec and are marked
as such in their doc comments.

JavaScript numbers are embedded as rationals (`ℚ`); the distinguished
non-finite values a JavaScript record may hold before sanitization are
captured by `JsNumber`.  JavaScript objects (`Record<string, number>`)
are embedded as functions `String → Option ℚ`: key-based lookup, update
and deletion are faithfully represented, insertion order (which only
affects display) is not modelled.
-/

/-- `Crop` from `types/agriculture.ts`: one crop variety with its
per-crop physical and price parameters. -/
structure Crop where
  name : String
  base_yield_per_plant : ℚ
  plants_per_acre : ℚ
  materials_cost_per_acre : ℚ
  purchase_price_per_lb : ℚ
  requirement : ℚ
  selling_price : ℚ
  selling_price_own_store : ℚ
deriving DecidableEq

/-- `FarmResources` from `types/agriculture.ts`. -/
structure FarmResources where
  total_land : ℚ
deriving DecidableEq

/-- A JavaScript value stored where a number is expected: a finite
number, `NaN`, `±Infinity`, or a non-numeric value.  `Number.isFinite`
is true exactly on the `finite` case. -/
inductive JsNumber where
  | finite (q : ℚ)
  | nan
  | posInf
  | negInf
  | nonNum
deriving DecidableEq

/-- `Number.isFinite` on a `JsNumber` (false on any non-number too). -/
def jsIsFinite : JsNumber → Bool
  | .finite _ => true
  | _ => false

/-- The value `Number.isFinite(v) ? v : 0.0` computed on an optionally
present record entry `v` (`undefined` when the key is missing). -/
def coerceFinite : Option JsNumber → ℚ
  | some (.finite q) => q
  | _ => 0

/-- `AgricultureScenario` as held in the wizard's React state: by
construction of `updateScenarioProb` / `updateYieldChange` every stored
number is finite, so values are plain rationals. -/
structure UIScenario where
  name : String
  probability : ℚ
  yield_changes : String → Option ℚ

/-- `AgricultureScenario` as it may arrive at
`agricultureService.optimize`: yield-change entries can be missing,
`NaN`, infinite or non-numeric (the situation the service's sanitizer
exists for). -/
structure RawScenario where
  name : String
  probability : ℚ
  yield_changes : String → Option JsNumber

/-- `AgricultureInput` with raw (unsanitized) scenarios. -/
structure RawInput where
  farm_resources : FarmResources
  crops : List Crop
  scenarios : List RawScenario

/-- `AgricultureInput` after sanitization: every yield-change value is a
plain finite number. -/
structure CleanInput where
  farm_resources : FarmResources
  crops : List Crop
  scenarios : List UIScenario

/-- `Object.fromEntries` on a list of `(key, value)` pairs, read back as
a key-based lookup: a later entry with the same key overwrites an
earlier one, a key occurring in no entry is absent. -/
def fromEntriesQ : List (String × ℚ) → String → Option ℚ
  | [], _ => none
  | (k, v) :: rest, q =>
    match fromEntriesQ rest q with
    | some w => some w
    | none => if q = k then some v else none

/-- The yield-change sanitizer of `agricultureService.optimize`
(`services/agricultureService.ts`): rebuild the record from the crop
names, replacing every missing or non-finite entry by `0.0`. -/
def serviceSanitizeYC (cropNames : List String) (yc : String → Option JsNumber) :
    String → Option ℚ :=
  fromEntriesQ (cropNames.map fun n => (n, coerceFinite (yc n)))

/-- The `sanitized` request body built by `agricultureService.optimize`:
scenarios get rebuilt yield-change records, all other fields are spread
through unchanged. -/
def serviceSanitize (data : RawInput) : CleanInput :=
  { farm_resources := data.farm_resources
    crops := data.crops
    scenarios := data.scenarios.map fun s =>
      { name := s.name
        probability := s.probability
        yield_changes := serviceSanitizeYC (data.crops.map (·.name)) s.yield_changes } }

/-- The yield-change sanitizer inside `handleOptimize`
(`AgricultureModule.tsx`): `crops.map(c => [c.name, Number.isFinite(v) ?
v : 0.0])` where `v = s.yield_changes[c.name]`; state values are finite,
so only a missing key is replaced (by `0.0`). -/
def handleSanitizeYC (crops : List Crop) (yc : String → Option ℚ) :
    String → Option ℚ :=
  fromEntriesQ (crops.map fun c => (c.name, (yc c.name).getD 0))

/-- The `input` value assembled by `handleOptimize` from the wizard
state: farm and crops pass through, each scenario is spread with a
rebuilt yield-change record.  The scenario `probability` is carried by
the `...s` spread, untouched. -/
def handleOptimizeInput (farm : FarmResources) (crops : List Crop)
    (scenarios : List UIScenario) : CleanInput :=
  { farm_resources := farm
    crops := crops
    scenarios := scenarios.map fun s =>
      { s with yield_changes := handleSanitizeYC crops s.yield_changes } }

/-- `totalProb` from `AgricultureModule.tsx`:
`scenarios.reduce((s, sc) => s + (sc.probability || 0), 0)`.  On a finite
stored number, `p || 0` is `p` (it maps `0` to `0`), so the fold is the
plain sum of probabilities. -/
def totalProb (scenarios : List UIScenario) : ℚ :=
  (scenarios.map (·.probability)).sum

/-- `probOk` from `AgricultureModule.tsx`:
`Math.abs(totalProb - 1) < 0.001`. -/
def probOk (scenarios : List UIScenario) : Bool :=
  decide (|totalProb scenarios - 1| < 1/1000)

/-- The `disabled` predicate of the Run Optimization button:
`isOptimizing || !probOk`.  While it is `true` the click handler
`handleOptimize` cannot fire, so no request is posted and no program is
built. -/
def runOptimizeDisabled (isOptimizing : Bool) (scenarios : List UIScenario) : Bool :=
  isOptimizing || !probOk scenarios

/-- The scenario-record rename performed by `updateCrop` when the edited
field is `name` (`AgricultureModule.tsx`): on a copy of
`s.yield_changes`, if `oldName` is a present key, `yc[newName] =
yc[oldName]; delete yc[oldName]`; otherwise the record is unchanged. -/
def renameYieldKey (oldName newName : String) (yc : String → Option ℚ) :
    String → Option ℚ :=
  if (yc oldName).isSome then
    fun k => if k = oldName then none else if k = newName then yc oldName else yc k
  else yc

/-- The `field === 'name'` branch of `updateCrop i 'name' newName`: crop
`i` gets the new name, and every scenario's yield-change record has the
old name's entry moved to the new name.  An out-of-range index leaves
the state unchanged (the claim under verification only concerns valid
indices). -/
def updateCropName (i : ℕ) (newName : String) (crops : List Crop)
    (scenarios : List UIScenario) : List Crop × List UIScenario :=
  match crops.get? i with
  | some ci =>
    (crops.mapIdx fun idx c => if idx = i then { c with name := newName } else c,
     scenarios.map fun s =>
       { s with yield_changes := renameYieldKey ci.name newName s.yield_changes })
  | none => (crops, scenarios)

/-! ## The optimization core, modelled from the spec

The Python backend (stochastic program builder, solver adapter, result
synthesizer) is not part of the repository snapshot; the definitions in
this section are modelled from the specification (§4, §6, §7) and the
mathematical model documented in the repository README, using the
concrete crop sector's channel set (vendor purchase, contracted/buyer
sale, own-store sale, waste, shortage). -/

/-- Modelled from the spec (§4.3 Solver Adapter): the solver verdict. -/
inductive SolverStatus where
  | Optimal
  | Infeasible
  | Unbounded
  | SolverError (reason : String)
deriving DecidableEq

/-- Modelled from the spec (§3): one candidate assignment of all
decision variables — a first-stage allocation per crop name and, per
(scenario name, crop name), the recourse channel quantities. -/
structure Solution where
  alloc : String → ℚ
  vendor : String → String → ℚ
  contractSale : String → String → ℚ
  storeSale : String → String → ℚ
  waste : String → String → ℚ
  shortage : String → String → ℚ

/-- The yield-change fraction a scenario assigns to a crop; a missing
entry defaults to `0.0` (spec §3 invariant). -/
def yieldChangeOf (s : UIScenario) (c : Crop) : ℚ :=
  (s.yield_changes c.name).getD 0

/-- The per-acre yield rate of a crop:
`plants_per_acre × base_yield_per_plant` (README model). -/
def cropYieldRate (c : Crop) : ℚ :=
  c.plants_per_acre * c.base_yield_per_plant

/-- Realized yield of a crop under an allocation and a yield-change
fraction: `allocation × yield_rate × (1 + fraction)` (spec §4.2). -/
def realizedYield (c : Crop) (alloc frac : ℚ) : ℚ :=
  alloc * cropYieldRate c * (1 + frac)

/-- Modelled from the spec (§4.2, README constraints): a solution is
feasible when the resource-pool bound, non-negativity, flow balance and
minimum-delivery constraints all hold. -/
def Feasible (inp : CleanInput) (sol : Solution) : Prop :=
  (inp.crops.map fun c => sol.alloc c.name).sum ≤ inp.farm_resources.total_land ∧
  (∀ c ∈ inp.crops, 0 ≤ sol.alloc c.name) ∧
  ∀ s ∈ inp.scenarios, ∀ c ∈ inp.crops,
    0 ≤ sol.vendor s.name c.name ∧
    0 ≤ sol.contractSale s.name c.name ∧
    0 ≤ sol.storeSale s.name c.name ∧
    0 ≤ sol.waste s.name c.name ∧
    0 ≤ sol.shortage s.name c.name ∧
    realizedYield c (sol.alloc c.name) (yieldChangeOf s c) + sol.vendor s.name c.name
      = sol.contractSale s.name c.name + sol.storeSale s.name c.name
        + sol.waste s.name c.name ∧
    c.requirement ≤ sol.contractSale s.name c.name + sol.shortage s.name c.name

/-- Modelled from the spec (§4.2 objective, README): a scenario's profit
— buyer-contract and own-store revenue minus first-stage materials cost
and vendor purchase cost (the crop sector has no waste-cost or
shortage-penalty parameters). -/
def scenarioProfit (inp : CleanInput) (sol : Solution) (s : UIScenario) : ℚ :=
  (inp.crops.map fun c =>
    c.selling_price * sol.contractSale s.name c.name
      + c.selling_price_own_store * sol.storeSale s.name c.name
      - c.materials_cost_per_acre * sol.alloc c.name
      - c.purchase_price_per_lb * sol.vendor s.name c.name).sum

/-- Modelled from the spec (§4.1): the maximized objective
`Σ_scenario probability × profit(scenario)`. -/
def objectiveValue (inp : CleanInput) (sol : Solution) : ℚ :=
  (inp.scenarios.map fun s => s.probability * scenarioProfit inp sol s).sum

/-- Modelled from the spec (§4.3): a solution is optimal when it is
feasible and no feasible solution attains a larger objective. -/
def IsOptimal (inp : CleanInput) (sol : Solution) : Prop :=
  Feasible inp sol ∧ ∀ sol', Feasible inp sol' → objectiveValue inp sol' ≤ objectiveValue inp sol

/-! Output contract structures, from `types/agriculture.ts`.  Records of
the JSON output are embedded as ordered `(key, value)` lists. -/

/-- `ScenarioResult` from `types/agriculture.ts`. -/
structure ScenarioResult where
  scenario_name : String
  probability : ℚ
  yield_realized : List (String × ℚ)
  vendor_purchases : List (String × ℚ)
  own_store_sales : List (String × ℚ)
  own_store_revenue : ℚ
  vendor_cost : ℚ
  profit : ℚ

/-- `stage1_decisions` of `AgricultureResult`. -/
structure Stage1Decisions where
  planting_plan : List (String × ℚ)
  total_land_used : ℚ
  land_utilization_pct : ℚ

/-- `financial_summary` of `AgricultureResult`. -/
structure FinancialSummary where
  buyer_revenue : ℚ
  planting_cost : ℚ
  expected_profit : ℚ
  worst_case_profit : ℚ
  best_case_profit : ℚ
  profit_range : ℚ

/-- `risk_metrics` of `AgricultureResult`; the standard deviation is a
real number (a square root). -/
structure RiskMetrics where
  expected_profit : ℚ
  std_deviation : ℝ
  min_profit : ℚ
  max_profit : ℚ
  profit_range : ℚ

/-- `AgricultureResult` from `types/agriculture.ts`. -/
structure AgricultureResult where
  status : String
  objective_value : ℚ
  stage1_decisions : Stage1Decisions
  stage2_decisions : List ScenarioResult
  financial_summary : FinancialSummary
  risk_metrics : RiskMetrics

/-- Expected profit over `(probability, profit)` pairs (spec §4.4):
`Σ_scenario probability × profit`. -/
def expectedProfit (l : List (ℚ × ℚ)) : ℚ :=
  (l.map fun x => x.1 * x.2).sum

/-- Probability-weighted profit variance (spec §4.4):
`Σ_scenario probability × (profit − expected)²`. -/
def profitVariance (l : List (ℚ × ℚ)) : ℚ :=
  (l.map fun x => x.1 * (x.2 - expectedProfit l) ^ 2).sum

/-- Probability-weighted standard deviation of profit (spec §4.4):
`sqrt(Σ probability × (profit − expected)²)`. -/
noncomputable def stdDeviation (l : List (ℚ × ℚ)) : ℝ :=
  Real.sqrt ((profitVariance l : ℝ))

/-- Maximum of a profit list (best case); `0` on the empty list, which a
validated input never produces. -/
def listMax : List ℚ → ℚ
  | [] => 0
  | x :: xs => xs.foldl max x

/-- Minimum of a profit list (worst case); `0` on the empty list. -/
def listMin : List ℚ → ℚ
  | [] => 0
  | x :: xs => xs.foldl min x

/-- Modelled from the spec (§4.4): the per-scenario summary the Result
Synthesizer derives from the solved variable values. -/
def scenarioResultOf (inp : CleanInput) (sol : Solution) (s : UIScenario) : ScenarioResult :=
  { scenario_name := s.name
    probability := s.probability
    yield_realized := inp.crops.map fun c =>
      (c.name, realizedYield c (sol.alloc c.name) (yieldChangeOf s c))
    vendor_purchases := inp.crops.map fun c => (c.name, sol.vendor s.name c.name)
    own_store_sales := inp.crops.map fun c => (c.name, sol.storeSale s.name c.name)
    own_store_revenue := (inp.crops.map fun c =>
      c.selling_price_own_store * sol.storeSale s.name c.name).sum
    vendor_cost := (inp.crops.map fun c =>
      c.purchase_price_per_lb * sol.vendor s.name c.name).sum
    profit := scenarioProfit inp sol s }

/-- Modelled from the spec (§4.4 Result Synthesizer): build the output
contract value from the solved program.  Expected/best/worst profit and
the risk metrics are derived from the per-scenario profits exactly as
§4.4 prescribes. -/
noncomputable def buildResult (inp : CleanInput) (sol : Solution) : AgricultureResult :=
  let pairs := inp.scenarios.map fun s => (s.probability, scenarioProfit inp sol s)
  let profits := inp.scenarios.map fun s => scenarioProfit inp sol s
  let totalLand := (inp.crops.map fun c => sol.alloc c.name).sum
  { status := "Optimal"
    objective_value := objectiveValue inp sol
    stage1_decisions :=
      { planting_plan := inp.crops.map fun c => (c.name, sol.alloc c.name)
        total_land_used := totalLand
        land_utilization_pct := totalLand / inp.farm_resources.total_land * 100 }
    stage2_decisions := inp.scenarios.map (scenarioResultOf inp sol)
    financial_summary :=
      { buyer_revenue := (inp.scenarios.map fun s => s.probability *
          (inp.crops.map fun c => c.selling_price * sol.contractSale s.name c.name).sum).sum
        planting_cost := (inp.crops.map fun c =>
          c.materials_cost_per_acre * sol.alloc c.name).sum
        expected_profit := expectedProfit pairs
        worst_case_profit := listMin profits
        best_case_profit := listMax profits
        profit_range := listMax profits - listMin profits }
    risk_metrics :=
      { expected_profit := expectedProfit pairs
        std_deviation := stdDeviation pairs
        min_profit := listMin profits
        max_profit := listMax profits
        profit_range := listMax profits - listMin profits } }

/-- Modelled from the spec (§7): the typed failures of the core.  No
constructor carries decision data — only the violated invariant or the
solver's reason string. -/
inductive OptFailure where
  | validation (msg : String)
  | infeasible
  | unbounded
  | solverError (reason : String)
deriving DecidableEq

/-- Modelled from the spec (§4.4 failure mode): the Result Synthesizer
produces a result only for an `Optimal` verdict; any other status is
propagated as a typed failure with no partial decision data. -/
noncomputable def synthesizeResult (inp : CleanInput) (status : SolverStatus) (sol : Solution) :
    Except OptFailure AgricultureResult :=
  match status with
  | .Optimal => .ok (buildResult inp sol)
  | .Infeasible => .error .infeasible
  | .Unbounded => .error .unbounded
  | .SolverError r => .error (.solverError r)

/-- The state update `handleOptimize` performs once the service call
settles (`AgricultureModule.tsx`): on success `setResults(res)` and the
wizard moves on; in the `catch` branch only `setError` runs —
`setResults` is not called, so the previous `results` value persists. -/
def handleOutcomeResults (prev : Option AgricultureResult)
    (out : Except String AgricultureResult) :
    Option AgricultureResult × Option String :=
  match out with
  | .ok r => (some r, none)
  | .error m => (prev, some m)

/-! ## Lemmas about the record sanitizers -/

/-- `Object.fromEntries` of a list of pairs whose value is a function of
the key: lookup returns that function's value exactly on the listed
keys. -/
theorem fromEntriesQ_map_self (names : List String) (f : String → ℚ) (k : String) :
    fromEntriesQ (names.map fun n => (n, f n)) k
      = if k ∈ names then some (f k) else none := by
  induction names with
  | nil => simp [fromEntriesQ]
  | cons n ns ih =>
    rw [List.map_cons]
    rw [show fromEntriesQ ((n, f n) :: ns.map fun m => (m, f m)) k
        = (match fromEntriesQ (ns.map fun m => (m, f m)) k with
           | some w => some w
           | none => if k = n then some (f n) else none) from rfl]
    rw [ih]
    by_cases hk : k ∈ ns
    · simp [hk]
    · by_cases hkn : k = n
      · subst hkn; simp [hk]
      · simp [hk, hkn]

/-- Pointwise description of `handleOptimize`'s yield-change sanitizer:
crop names get the stored value (`0` when absent), other keys are
absent. -/
theorem handleSanitizeYC_eq (crops : List Crop) (yc : String → Option ℚ) (k : String) :
    handleSanitizeYC crops yc k
      = if k ∈ crops.map (·.name) then some ((yc k).getD 0) else none := by
  unfold handleSanitizeYC
  rw [show (fun c : Crop => (c.name, (yc c.name).getD 0))
      = ((fun n => (n, (yc n).getD 0)) ∘ fun c : Crop => c.name) from rfl,
    ← List.map_map]
  exact fromEntriesQ_map_self _ _ _

/-- Pointwise description of the service's yield-change sanitizer. -/
theorem serviceSanitizeYC_eq (names : List String) (yc : String → Option JsNumber)
    (k : String) :
    serviceSanitizeYC names yc k
      = if k ∈ names then some (coerceFinite (yc k)) else none :=
  fromEntriesQ_map_self names (fun n => coerceFinite (yc n)) k

/-- Pointwise description of the `updateCrop` rename on a record that
contains the old key. -/
theorem renameYieldKey_spec (oldName newName : String) (yc : String → Option ℚ)
    (v : ℚ) (hkey : yc oldName = some v) (hne : newName ≠ oldName) :
    renameYieldKey oldName newName yc newName = some v ∧
    renameYieldKey oldName newName yc oldName = none ∧
    ∀ k, k ≠ oldName → k ≠ newName → renameYieldKey oldName newName yc k = yc k := by
  unfold renameYieldKey
  rw [hkey]
  refine ⟨?_, ?_, ?_⟩
  · simp [hne, hkey]
  · simp
  · intro k hk1 hk2
    simp [hk1, hk2]

/-! ## Claim theorems -/

/-- C2: an input whose scenario probabilities do not sum to 1.0 within
the tolerance `1e-3` is rejected before any optimization runs — the Run
Optimization button is disabled (so `handleOptimize` never fires and no
program variable is ever created) — and whenever a run is assembled the
probabilities are passed through exactly as entered, never renormalized;
an input within tolerance passes the `probOk` check. -/
theorem claim_C2_probability_sum_gate (scenarios : List UIScenario) :
    (probOk scenarios = true ↔ |totalProb scenarios - 1| < 1/1000) ∧
    (¬ |totalProb scenarios - 1| < 1/1000 →
      ∀ busy : Bool, runOptimizeDisabled busy scenarios = true) ∧
    (∀ farm crops,
      ((handleOptimizeInput farm crops scenarios).scenarios.map (·.probability))
        = scenarios.map (·.probability)) := by
  refine ⟨by simp [probOk], ?_, ?_⟩
  · intro h busy
    have hpf : probOk scenarios = false := by
      simpa [probOk] using h
    cases busy with
    | true => rfl
    | false => simp [runOptimizeDisabled, hpf]
  · intro farm crops
    simp [handleOptimizeInput]

/-- Witness for C2 at a concrete scenario set with total probability
0.8: the check fails and the run button is disabled. -/
theorem claim_C2_probability_sum_gate_witness :
    runOptimizeDisabled false
      [⟨"Drought", 3/10, fun _ => none⟩, ⟨"Normal", 1/2, fun _ => none⟩] = true :=
  (claim_C2_probability_sum_gate _).2.1 (by norm_num [totalProb, abs_lt]) false

/-- C3: for every crop present in the crop list, a yield-change entry
missing for that crop is treated as `0.0` by `handleOptimize`'s
sanitizer, the crop is never absent from the sanitized record, and the
service-side sanitizer behaves the same way — no error is possible
(both sanitizers are total functions). -/
theorem claim_C3_missing_yield_defaults_to_zero (crops : List Crop) (c : Crop)
    (hc : c ∈ crops) :
    (∀ yc : String → Option ℚ, yc c.name = none →
        handleSanitizeYC crops yc c.name = some 0) ∧
    (∀ yc : String → Option ℚ, (handleSanitizeYC crops yc c.name).isSome = true) ∧
    (∀ ycr : String → Option JsNumber, ycr c.name = none →
        serviceSanitizeYC (crops.map (·.name)) ycr c.name = some 0) := by
  have hmem : c.name ∈ crops.map (·.name) := List.mem_map_of_mem _ hc
  refine ⟨?_, ?_, ?_⟩
  · intro yc hyc
    rw [handleSanitizeYC_eq, if_pos hmem, hyc]
    rfl
  · intro yc
    rw [handleSanitizeYC_eq, if_pos hmem]
    rfl
  · intro ycr hyc
    rw [serviceSanitizeYC_eq, if_pos hmem, hyc]
    rfl

/-- Witness for C3: a crop list containing "Tomato" and a scenario
record with no entries at all still sanitizes "Tomato" to `0.0`. -/
theorem claim_C3_missing_yield_defaults_to_zero_witness :
    handleSanitizeYC [⟨"Tomato", 2, 1000, 200, 1/2, 5000, 4/5, 6/5⟩]
      (fun _ => none) "Tomato" = some 0 :=
  (claim_C3_missing_yield_defaults_to_zero
      [⟨"Tomato", 2, 1000, 200, 1/2, 5000, 4/5, 6/5⟩] _
      (List.mem_singleton.mpr rfl)).1 (fun _ => none) rfl

/-- C9: the request body actually posted by
`agricultureService.optimize` keeps the farm, crop and scenario
name/probability fields unchanged, and rebuilds every scenario's
yield-change record so that its key set is exactly the crop-name set:
every crop name maps to a value (the raw finite value, or `0.0` when
the raw entry is missing, `NaN`, infinite or non-numeric, which is what
`coerceFinite` computes), and every key not naming a crop is dropped. -/
theorem claim_C9_posted_body_sanitized (data : RawInput) :
    (serviceSanitize data).farm_resources = data.farm_resources ∧
    (serviceSanitize data).crops = data.crops ∧
    (serviceSanitize data).scenarios.length = data.scenarios.length ∧
    ∀ j s, data.scenarios.get? j = some s →
      ∃ s', (serviceSanitize data).scenarios.get? j = some s' ∧
        s'.name = s.name ∧ s'.probability = s.probability ∧
        (∀ k, k ∈ data.crops.map (·.name) →
            s'.yield_changes k = some (coerceFinite (s.yield_changes k))) ∧
        (∀ k, k ∉ data.crops.map (·.name) → s'.yield_changes k = none) := by
  refine ⟨rfl, rfl, by simp [serviceSanitize], ?_⟩
  intro j s hj
  refine ⟨⟨s.name, s.probability,
      serviceSanitizeYC (data.crops.map (·.name)) s.yield_changes⟩, ?_, rfl, rfl, ?_, ?_⟩
  · show (data.scenarios.map _).get? j = _
    rw [List.get?_map, hj]
    rfl
  · intro k hk
    exact (serviceSanitizeYC_eq _ _ _).trans (if_pos hk)
  · intro k hk
    exact (serviceSanitizeYC_eq _ _ _).trans (if_neg hk)

/-- Witness for C9: a raw input whose scenario maps "Tomato" to `NaN`
and carries a stray key "Weeds" is posted with "Tomato" replaced by
`0.0` and "Weeds" dropped. -/
theorem claim_C9_posted_body_sanitized_witness :
    ∃ s', (serviceSanitize
        ⟨⟨100⟩, [⟨"Tomato", 2, 1000, 200, 1/2, 5000, 4/5, 6/5⟩],
          [⟨"Drought", 1,
            fun k => if k = "Tomato" then some .nan
              else if k = "Weeds" then some (.finite 1) else none⟩]⟩).scenarios.get? 0
        = some s' ∧
      s'.yield_changes "Tomato" = some 0 ∧ s'.yield_changes "Weeds" = none := by
  obtain ⟨-, -, -, h⟩ := claim_C9_posted_body_sanitized
    ⟨⟨100⟩, [⟨"Tomato", 2, 1000, 200, 1/2, 5000, 4/5, 6/5⟩],
      [⟨"Drought", 1,
        fun k => if k = "Tomato" then some .nan
          else if k = "Weeds" then some (.finite 1) else none⟩]⟩
  obtain ⟨s', hs', -, -, hin, hout⟩ := h 0 _ rfl
  refine ⟨s', hs', ?_, hout "Weeds" (by decide)⟩
  have := hin "Tomato" (by decide)
  simpa using this

/-- C10: renaming crop `i` from `oldName` to a different `newName` moves
each scenario's yield-change entry: the value previously under
`oldName` is now under `newName`, `oldName` is no longer a key, and
every other key keeps its value. -/
theorem claim_C10_rename_moves_yield_entry (crops : List Crop)
    (scenarios : List UIScenario) (i j : ℕ) (ci : Crop) (newName : String)
    (s : UIScenario) (v : ℚ)
    (hi : crops.get? i = some ci) (hne : newName ≠ ci.name)
    (hj : scenarios.get? j = some s) (hkey : s.yield_changes ci.name = some v) :
    ∃ s', (updateCropName i newName crops scenarios).2.get? j = some s' ∧
      s'.yield_changes newName = some v ∧
      s'.yield_changes ci.name = none ∧
      ∀ k, k ≠ ci.name → k ≠ newName → s'.yield_changes k = s.yield_changes k := by
  obtain ⟨h1, h2, h3⟩ := renameYieldKey_spec ci.name newName s.yield_changes v hkey hne
  refine ⟨{ s with yield_changes := renameYieldKey ci.name newName s.yield_changes },
    ?_, h1, h2, h3⟩
  unfold updateCropName
  rw [hi]
  show (scenarios.map _).get? j = _
  rw [List.get?_map, hj]
  rfl

/-- Witness for C10: renaming "Tomato" to "Cherry" in a one-scenario
state moves the stored −0.3 entry to "Cherry". -/
theorem claim_C10_rename_moves_yield_entry_witness :
    ∃ s', (updateCropName 0 "Cherry"
        [⟨"Tomato", 2, 1000, 200, 1/2, 5000, 4/5, 6/5⟩]
        [⟨"Drought", 1, fun k => if k = "Tomato" then some (-(3/10)) else none⟩]).2.get? 0
        = some s' ∧
      s'.yield_changes "Cherry" = some (-(3/10)) ∧
      s'.yield_changes "Tomato" = none ∧
      ∀ k, k ≠ "Tomato" → k ≠ "Cherry" →
        s'.yield_changes k
          = (fun k => if k = "Tomato" then some (-(3/10)) else none) k :=
  claim_C10_rename_moves_yield_entry
    [⟨"Tomato", 2, 1000, 200, 1/2, 5000, 4/5, 6/5⟩]
    [⟨"Drought", 1, fun k => if k = "Tomato" then some (-(3/10)) else none⟩]
    0 0 ⟨"Tomato", 2, 1000, 200, 1/2, 5000, 4/5, 6/5⟩ "Cherry" _ (-(3/10))
    rfl (by simp) rfl (by simp)

/-- C1: in the synthesized result, the reported expected profit equals
the probability-weighted sum of the reported per-scenario profits, so it
is recomputable exactly from the per-scenario outputs. -/
theorem claim_C1_expected_profit_recomputable (inp : CleanInput) (sol : Solution) :
    (buildResult inp sol).financial_summary.expected_profit
      = ((buildResult inp sol).stage2_decisions.map
          fun sr => sr.probability * sr.profit).sum := by
  simp only [buildResult, expectedProfit, scenarioResultOf, List.map_map]
  rfl

/-- C4: every optimal solution satisfies the resource-pool constraint —
first-stage allocations summed over all crops are at most the pool
capacity (the constraint is part of feasibility, which optimality
includes). -/
theorem claim_C4_pool_capacity_bound (inp : CleanInput) (sol : Solution)
    (h : IsOptimal inp sol) :
    (inp.crops.map fun c => sol.alloc c.name).sum
      ≤ inp.farm_resources.total_land :=
  h.1.1

/-- Witness for C4 at a concrete instance (zero capacity, no crops, one
certain scenario, all-zero solution) whose optimality is provable. -/
theorem claim_C4_pool_capacity_bound_witness :
    ((CleanInput.mk ⟨0⟩ [] [⟨"Normal", 1, fun _ => none⟩]).crops.map fun c =>
        (Solution.mk (fun _ => 0) (fun _ _ => 0) (fun _ _ => 0) (fun _ _ => 0)
          (fun _ _ => 0) (fun _ _ => 0)).alloc c.name).sum
      ≤ (CleanInput.mk ⟨0⟩ [] [⟨"Normal", 1, fun _ => none⟩]).farm_resources.total_land := by
  apply claim_C4_pool_capacity_bound
  refine ⟨⟨?_, ?_, ?_⟩, ?_⟩
  · simp
  · simp
  · intro s hs c hc
    simp at hc
  · intro sol' h'
    simp [objectiveValue, scenarioProfit]

/-- C5: for every run whose solver status is not Optimal, the result
synthesizer produces no result object: it returns a typed failure (the
`OptFailure` type carries no allocations, scenario values or profit
figures), and the frontend `catch` path leaves `results` at `null`,
storing only the error message. -/
theorem claim_C5_non_optimal_propagates_failure (inp : CleanInput) (sol : Solution)
    (status : SolverStatus) (hne : status ≠ SolverStatus.Optimal) :
    (∃ e : OptFailure, synthesizeResult inp status sol = .error e) ∧
    ∀ m : String, handleOutcomeResults none (.error m) = (none, some m) := by
  refine ⟨?_, fun m => rfl⟩
  cases status with
  | Optimal => exact absurd rfl hne
  | Infeasible => exact ⟨.infeasible, rfl⟩
  | Unbounded => exact ⟨.unbounded, rfl⟩
  | SolverError r => exact ⟨.solverError r, rfl⟩

/-- Witness for C5 at a concrete infeasible run. -/
theorem claim_C5_non_optimal_propagates_failure_witness :
    (∃ e : OptFailure,
        synthesizeResult (CleanInput.mk ⟨100⟩ [] [⟨"Normal", 1, fun _ => none⟩])
          SolverStatus.Infeasible
          (Solution.mk (fun _ => 0) (fun _ _ => 0) (fun _ _ => 0) (fun _ _ => 0)
            (fun _ _ => 0) (fun _ _ => 0)) = .error e) ∧
    ∀ m : String, handleOutcomeResults none (.error m) = (none, some m) :=
  claim_C5_non_optimal_propagates_failure _ _ _
    (fun h => SolverStatus.noConfusion h)

/-- C7: for an input with exactly one scenario of probability 1.0, the
reported expected profit equals that scenario's reported profit and the
reported standard deviation is exactly 0. -/
theorem claim_C7_single_scenario_degenerate (inp : CleanInput) (sol : Solution)
    (s : UIScenario) (h1 : inp.scenarios = [s]) (h2 : s.probability = 1) :
    (buildResult inp sol).stage2_decisions = [scenarioResultOf inp sol s] ∧
    (buildResult inp sol).financial_summary.expected_profit
      = (scenarioResultOf inp sol s).profit ∧
    (buildResult inp sol).risk_metrics.std_deviation = 0 := by
  refine ⟨?_, ?_, ?_⟩
  · simp [buildResult, h1]
  · simp [buildResult, h1, expectedProfit, h2, scenarioResultOf]
  · simp [buildResult, h1, stdDeviation, profitVariance, expectedProfit, h2]

/-- Witness for C7 at a concrete one-scenario input. -/
theorem claim_C7_single_scenario_degenerate_witness :
    (buildResult (CleanInput.mk ⟨100⟩ [] [⟨"Normal", 1, fun _ => none⟩])
        (Solution.mk (fun _ => 0) (fun _ _ => 0) (fun _ _ => 0) (fun _ _ => 0)
          (fun _ _ => 0) (fun _ _ => 0))).stage2_decisions
      = [scenarioResultOf (CleanInput.mk ⟨100⟩ [] [⟨"Normal", 1, fun _ => none⟩])
          (Solution.mk (fun _ => 0) (fun _ _ => 0) (fun _ _ => 0) (fun _ _ => 0)
            (fun _ _ => 0) (fun _ _ => 0)) ⟨"Normal", 1, fun _ => none⟩] ∧
    (buildResult (CleanInput.mk ⟨100⟩ [] [⟨"Normal", 1, fun _ => none⟩])
        (Solution.mk (fun _ => 0) (fun _ _ => 0) (fun _ _ => 0) (fun _ _ => 0)
          (fun _ _ => 0) (fun _ _ => 0))).financial_summary.expected_profit
      = (scenarioResultOf (CleanInput.mk ⟨100⟩ [] [⟨"Normal", 1, fun _ => none⟩])
          (Solution.mk (fun _ => 0) (fun _ _ => 0) (fun _ _ => 0) (fun _ _ => 0)
            (fun _ _ => 0) (fun _ _ => 0)) ⟨"Normal", 1, fun _ => none⟩).profit ∧
    (buildResult (CleanInput.mk ⟨100⟩ [] [⟨"Normal", 1, fun _ => none⟩])
        (Solution.mk (fun _ => 0) (fun _ _ => 0) (fun _ _ => 0) (fun _ _ => 0)
          (fun _ _ => 0) (fun _ _ => 0))).risk_metrics.std_deviation = 0 :=
  claim_C7_single_scenario_degenerate _ _ ⟨"Normal", 1, fun _ => none⟩ rfl rfl

/-- Modelled from the spec (§6): structural validation requires
non-negativity of all physical quantities of a production unit before
the program is built. -/
def ValidCrop (c : Crop) : Prop :=
  0 ≤ c.base_yield_per_plant ∧ 0 ≤ c.plants_per_acre ∧
  0 ≤ c.materials_cost_per_acre ∧ 0 ≤ c.purchase_price_per_lb ∧
  0 ≤ c.requirement ∧ 0 ≤ c.selling_price ∧ 0 ≤ c.selling_price_own_store

/-- C8: for a validated crop and a fixed non-negative first-stage
allocation, realized yield `allocation × yield_rate × (1 + fraction)` is
monotone non-decreasing in the yield-change fraction. -/
theorem claim_C8_realized_yield_monotone (c : Crop) (alloc f1 f2 : ℚ)
    (hc : ValidCrop c) (ha : 0 ≤ alloc) (hf : f1 ≤ f2) :
    realizedYield c alloc f1 ≤ realizedYield c alloc f2 := by
  unfold realizedYield
  have hrate : 0 ≤ cropYieldRate c := mul_nonneg hc.2.1 hc.1
  have hbase : 0 ≤ alloc * cropYieldRate c := mul_nonneg ha hrate
  have h1 : (1 : ℚ) + f1 ≤ 1 + f2 := by linarith
  exact mul_le_mul_of_nonneg_left h1 hbase

/-- Witness for C8: a −100% yield change never yields more than a 0%
change for a concrete crop and allocation. -/
theorem claim_C8_realized_yield_monotone_witness :
    realizedYield ⟨"Tomato", 2, 1000, 200, 1/2, 5000, 4/5, 6/5⟩ 10 (-1)
      ≤ realizedYield ⟨"Tomato", 2, 1000, 200, 1/2, 5000, 4/5, 6/5⟩ 10 0 :=
  claim_C8_realized_yield_monotone _ _ _ _
    (by norm_num [ValidCrop]) (by norm_num) (by norm_num)
